import Mathlib

/-!
# tmpl: compile-time value lists and validity probes

A verification development for the two headers of the `tmpl` library:

* `include/detail/value_list_function_detail.hpp` (`slice_helper`), and
* `include/concepts.hpp` (`is_valid`, `member_ptr_helper` and the `tmpl_has_*` macros).

Everything in the library is evaluated by the C++ compiler.  The embedding turns each
template into a Lean function on the template arguments: a parameter pack is a `List`, a
template instantiation that is ill-formed is a missing result.
-/

namespace tmpl

/-! ## Value lists -/

/-- The pack `V...` of `value_list<V...>`: the values in order.  The values of a list are
`auto` non-type template arguments, so the element type is left generic. -/
abbrev value_list (α : Type) := List α

/-- The pack `I...` of `std::integer_sequence<int, I...>`. -/
abbrev integer_sequence := List Int

/-- The standard `std::make_integer_sequence<int, N>`: the indices `0, 1, ..., N-1`. -/
def make_integer_sequence (N : Nat) : integer_sequence :=
  (List.range N).map Int.ofNat

/-- Modelled from the spec: `operator|` on two value lists, declared in a header that is not
part of the sources at hand (`tmpl_common.hpp` is only included).  The spec's "Concatenate":
the elements of the left operand in their order, followed by those of the right operand. -/
def concat {α : Type} (a b : value_list α) : value_list α :=
  a ++ b

/-- An operand of the condition of the `if constexpr` in `slice_helper` (line 16), with the
`int` it stands for. -/
inductive Operand where
  /-- A non-type template parameter, such as `Start` and `End` (line 12). -/
  | template_parameter (value : Int) : Operand
  /-- The name of a function parameter of reference type, such as `idx`, which the lambda
  declares as `auto &&idx` (line 15); it is bound to a `std::integral_constant<int, I>`. -/
  | reference_parameter (value : Int) : Operand

/-- The value of an operand in a constant expression, as C++17 [expr.const] has it: a
template parameter is a constant, while an id-expression that names a variable of reference
type is no core constant expression unless the reference has a preceding initialization,
which a function parameter has not. -/
def Operand.constant_value : Operand → Option Int
  | .template_parameter v => some v
  | .reference_parameter _ => none

namespace detail

/-- The condition `(Start <= idx) && (idx < End)` of the `if constexpr` (line 16), which
must be a constant expression: its value, or nothing when it is not one. -/
def slice_helper_condition (Start End : Int) (idx : Operand) : Option Bool :=
  match (Operand.template_parameter Start).constant_value, idx.constant_value,
      (Operand.template_parameter End).constant_value with
  | some s, some i, some e => some (decide (s ≤ i) && decide (i < e))
  | _, _, _ => none

/-- The generic lambda `f` of `slice_helper` (lines 15-23), instantiated for one call: the
first argument is returned when the condition holds, and `value_list<>{}` otherwise.  The
instantiation is ill-formed (`none`) when the condition is not a constant expression. -/
def slice_helper_f {α : Type} (Start End : Int) (x : value_list α) (idx : Operand) :
    Option (value_list α) :=
  match slice_helper_condition Start End idx with
  | some true => some x
  | some false => some []
  | none => none

/-- The simultaneous expansion of the packs `V` and `I` in the operand
`f(value_list<V>{}, std::integral_constant<int, I>{})` of the fold (line 25): one
contribution per position, `f` receiving the index through its reference parameter `idx`.
Two packs of different lengths cannot be expanded together, and the instantiation is then
ill-formed (`none`), as it is when a call of `f` is. -/
def expand {α : Type} (Start End : Int) :
    List α → integer_sequence → Option (List (value_list α))
  | [], [] => some []
  | v :: vs, i :: is =>
    match slice_helper_f Start End [v] (Operand.reference_parameter i),
        expand Start End vs is with
    | some e, some es => some (e :: es)
    | _, _ => none
  | _, _ => none

/-- The binary right fold `(E | ... | init)` of line 25:
`E1 | (E2 | (... | (En | init)))`. -/
def fold_right {α : Type} : List (value_list α) → value_list α → value_list α
  | [], init => init
  | e :: es, init => concat e (fold_right es init)

/-- The function template `slice_helper<Start, End>(value_list<V...>,
std::integer_sequence<int, I...>)` (lines 12-26).  `Start`, `End` and the indices are `int`s
that are only compared with each other, never computed with, so they are taken as
integers. -/
def slice_helper {α : Type} (Start End : Int) (V : value_list α) (I : integer_sequence) :
    Option (value_list α) :=
  match expand Start End V I with
  | some es => some (fold_right es [])
  | none => none

end detail

/-! ## A fragment of the C++ type system

`concepts.hpp` computes with types.  The types it can be asked about are modelled by
`CType`; classes are nominal and their declarations live in a `Program`. -/

/-- Non-reference types: the candidate types of a detector and the types that the traits
below compute.  Qualifiers (`const`, `volatile`, ref-qualifiers of function types) and arrays
are not modelled. -/
inductive CType where
  /-- The type `void`. -/
  | void_ : CType
  /-- The fundamental type `int`, standing for all scalar non-pointer types. -/
  | int_ : CType
  /-- The class type called `name`. -/
  | cls (name : String) : CType
  /-- The function type `ret(params...)`. -/
  | func (ret : CType) (params : List CType) : CType
  /-- The ordinary pointer type `pointee*`. -/
  | ptr (pointee : CType) : CType
  /-- The pointer-to-member type `pointee cls::*`. -/
  | memptr (pointee : CType) (cls : String) : CType

/-- A declared type: a non-reference type or a reference to one.  This is what `decltype`
gives and what a data member may be declared with. -/
inductive DeclType where
  | plain (t : CType) : DeclType
  | lref (t : CType) : DeclType
  | rref (t : CType) : DeclType

/-- Member access levels. -/
inductive Access where
  | pub : Access
  | prot : Access
  | priv : Access
  deriving DecidableEq

/-- What a member declaration of a class introduces. -/
inductive MemberKind where
  /-- A non-static data member `ty name;`. -/
  | data (ty : DeclType) : MemberKind
  /-- A static data member `static ty name;`. -/
  | static_data (ty : DeclType) : MemberKind
  /-- A non-static member function `ret name(params...);`. -/
  | function (ret : CType) (params : List CType) : MemberKind
  /-- A static member function `static ret name(params...);`. -/
  | static_function (ret : CType) (params : List CType) : MemberKind
  /-- A nested type name: `typedef ty name;`, `using name = ty;` or a nested class. -/
  | type_ (ty : CType) : MemberKind

/-- One member declaration.  An overloaded member function is several declarations with the
same name. -/
structure Member where
  name : String
  access : Access
  kind : MemberKind

/-- A class definition without base classes. -/
structure ClassDecl where
  name : String
  members : List Member

/-- The class definitions of a translation unit. -/
abbrev Program := List ClassDecl

/-- The members of the complete class type `T`; nothing for a type that is not a class or
has no definition. -/
def members_of (p : Program) : CType → Option (List Member)
  | .cls n =>
    match p.find? (fun d => d.name == n) with
    | some d => some d.members
    | none => none
  | _ => none

/-- Class member name lookup of `M` in the scope of `T`: the declarations found. -/
def lookup (p : Program) (T : CType) (M : String) : List Member :=
  match members_of p T with
  | some ms => ms.filter (fun m => m.name == M)
  | none => []

/-- The outcome of substituting template arguments into a construct. -/
inductive Subst (α : Type) where
  /-- The construct is well-formed and denotes `a`. -/
  | ok (a : α) : Subst α
  /-- The construct is ill-formed in the immediate context: a substitution failure, which
  silently discards the candidate. -/
  | failure : Subst α
  /-- The construct is ill-formed outside the immediate context: the program is ill-formed
  and translation stops. -/
  | hard_error : Subst α

/-- Whether the outcome is a well-formed construct. -/
def Subst.is_ok {α : Type} : Subst α → Bool
  | .ok _ => true
  | _ => false

/-- Whether the outcome is a hard error. -/
def Subst.is_hard_error {α : Type} : Subst α → Bool
  | .hard_error => true
  | _ => false

/-- Sequencing of substitutions: the first ill-formed construct decides. -/
def Subst.bind {α β : Type} : Subst α → (α → Subst β) → Subst β
  | .ok a, k => k a
  | .failure, _ => .failure
  | .hard_error, _ => .hard_error

/-! ### Standard type traits and expressions used by the header -/

/-- The trait `std::is_function_v<T>`. -/
def is_function_v : CType → Bool
  | .func _ _ => true
  | _ => false

/-- The trait `std::remove_pointer_t<T>`: the pointee of an ordinary pointer, and `T` itself
for every other type (a pointer to member included). -/
def remove_pointer_t : CType → CType
  | .ptr t => t
  | t => t

/-- The trait `std::remove_reference_t<T>`. -/
def remove_reference_t : DeclType → CType
  | .plain t => t
  | .lref t => t
  | .rref t => t

/-- The trait `std::decay_t<T>`: the reference is removed and a function type becomes a
pointer to function. -/
def decay_t (T : DeclType) : CType :=
  match remove_reference_t T with
  | .func r ps => .ptr (.func r ps)
  | t => t

/-- The alias `std::enable_if_t<B>`: `void` when `B` holds, no type otherwise. -/
def enable_if_t : Bool → Subst CType
  | true => .ok .void_
  | false => .failure

/-- The alias `std::void_t<Ts...>` on one argument: `void` whenever the argument is
well-formed. -/
def void_t (T : Subst CType) : Subst CType :=
  T.bind (fun _ => .ok .void_)

/-- The type of the call `std::declval<T>()`, namely `std::add_rvalue_reference_t<T>`. -/
def declval : CType → Subst DeclType
  | .void_ => .ok (.plain .void_)
  | t => .ok (.rref t)

/-- The declared type of the parameter `x` of a generic lambda `[](auto &&x)` that is called
with an argument of type `X`, as `std::result_of_t<F(X)>` does: `X&&`. -/
def decltype_x (X : CType) : DeclType :=
  .rref X

/-- The type of the expression `&T::MEMBER` that a probe written outside of `T` names in a
`decltype`.  A single public declaration must be found.  A non-static member gives a pointer
to member (there is none to a member of reference type), a static member an ordinary pointer;
a type name is not an expression and an overloaded name has no type here. -/
def addr_of_member (p : Program) (T : CType) (MEMBER : String) : Subst CType :=
  match T, lookup p T MEMBER with
  | .cls c, [m] =>
    match m.access, m.kind with
    | .pub, .data (.plain t) => .ok (.memptr t c)
    | .pub, .static_data ty => .ok (.ptr (remove_reference_t ty))
    | .pub, .function r ps => .ok (.memptr (.func r ps) c)
    | .pub, .static_function r ps => .ok (.ptr (.func r ps))
    | _, _ => .failure
  | _, _ => .failure

/-- The type named by `typename T::NAME` in a probe written outside of `T`: a single public
nested type must be found. -/
def nested_type (p : Program) (T : CType) (NAME : String) : Subst CType :=
  match lookup p T NAME with
  | [m] =>
    match m.access, m.kind with
    | .pub, .type_ t => .ok t
    | _, _ => .failure
  | _ => .failure

/-- The type of the expression `x.MEMBER` for `x` of class type `T`, in a probe written
outside of `T`, when the expression is used as a whole (it is not called).  A single public
declaration must be found; the name of a non-static member function can only be called, and a
type name is not an expression. -/
def member_access (p : Program) (T : CType) (MEMBER : String) : Subst DeclType :=
  match lookup p T MEMBER with
  | [m] =>
    match m.access, m.kind with
    | .pub, .data ty => .ok (.lref (remove_reference_t ty))
    | .pub, .static_data ty => .ok (.lref (remove_reference_t ty))
    | .pub, .static_function r ps => .ok (.lref (.func r ps))
    | _, _ => .failure
  | _ => .failure

/-! ## `concepts.hpp` -/

/-- A probe type `F`: the states of its objects, and for every argument type `X` the outcome
of forming `std::result_of_t<F(X)>`. -/
structure ProbeType where
  State : Type
  result_of_t : CType → Subst CType

/-- The closure type of `[](auto &&x) -> R {}`, whose trailing return type `R` is written in
terms of `decltype(x)`.  `std::result_of_t<F(void)>` stands for a call without arguments, for
which the lambda is not viable; otherwise the return type is substituted in the immediate
context. -/
def generic_lambda (R : DeclType → Subst CType) : ProbeType where
  State := Unit
  result_of_t := fun X =>
    match X with
    | .void_ => .failure
    | X => R (decltype_x X)

/-- The closure type of `[](auto &&x) { return e; }` without a trailing return type: the
body is instantiated to deduce the return type, outside of the immediate context, so an
ill-formed `e` is a hard error. -/
def generic_lambda_deduced (e : DeclType → Subst DeclType) : ProbeType where
  State := Unit
  result_of_t := fun X =>
    match X with
    | .void_ => .failure
    | X =>
      match e (decltype_x X) with
      | .ok t => .ok (decay_t t)
      | _ => .hard_error

/-- The pack `T...` of `type_list<T...>`; the class itself is empty. -/
abbrev type_list := List CType

/-- Modelled from the spec: `unbox`, declared in `type_list_functions.hpp`, which is not part
of the sources at hand.  It "unboxes" a type-list singleton wrapping a candidate type `T` "to
obtain a bare instance-of-T placeholder"; the result is the type of that placeholder.  There
is no such placeholder for a list that is not a singleton. -/
def unbox : type_list → Option CType
  | [T] => some T
  | _ => none

namespace detail

/-- The class template `is_valid_helper<F, X>` (lines 16-24), as its member `value`: the
partial specialization derives from `std::true_type` and is chosen when
`std::void_t<std::result_of_t<F(X)>>` is well-formed, the primary template derives from
`std::false_type`.  There is no value when the instantiation stops with a hard error. -/
def is_valid_helper (F : ProbeType) (X : CType) : Option Bool :=
  match void_t (F.result_of_t X) with
  | .ok _ => some true
  | .failure => some false
  | .hard_error => none

/-- The class template `member_ptr_helper<T>` (lines 26-35), as its member `type`: only the
partial specialization for `U T::*` has one. -/
def member_ptr_helper : CType → Option CType
  | .memptr U _ => some U
  | _ => none

/-- The alias `member_ptr_helper_t<T>` (lines 37-38): naming a member `type` that does not
exist is a substitution failure. -/
def member_ptr_helper_t (T : CType) : Subst CType :=
  match member_ptr_helper T with
  | some U => .ok U
  | none => .failure

end detail

/-- The function template `is_valid<F>(F f)` (lines 58-64) applied to `f` and then to `x`:
the returned lambda captures nothing and yields
`detail::is_valid_helper<F, decltype(unbox(x))>::value`. -/
def is_valid (F : ProbeType) (_f : F.State) (x : type_list) : Option Bool :=
  match unbox x with
  | some X => detail.is_valid_helper F X
  | none => none

/-- The probe of `tmpl_has_member(TYPE, MEMBER)` (line 72):
`[](auto &&x) constexpr -> decltype((void)x.MEMBER) {}`. -/
def tmpl_has_member_probe (p : Program) (MEMBER : String) : ProbeType :=
  generic_lambda (fun Tx =>
    (member_access p (remove_reference_t Tx) MEMBER).bind (fun _ => .ok .void_))

/-- The macro `tmpl_has_member(TYPE, MEMBER)` (lines 71-72). -/
def tmpl_has_member (p : Program) (TYPE : CType) (MEMBER : String) : Option Bool :=
  is_valid (tmpl_has_member_probe p MEMBER) () [TYPE]

/-- The probe of `tmpl_has_typedef(TYPE, TYPEDEF_NAME)` (lines 79-80):
`[](auto &&x) constexpr ->
decltype((void)(std::declval<typename std::decay_t<decltype(x)>::value_type>())) {}`.
The macro parameter `TYPEDEF_NAME` does not occur in it. -/
def tmpl_has_typedef_probe (p : Program) : ProbeType :=
  generic_lambda (fun Tx =>
    (nested_type p (decay_t Tx) "value_type").bind (fun U =>
      (declval U).bind (fun _ => .ok .void_)))

/-- The macro `tmpl_has_typedef(TYPE, TYPEDEF_NAME)` (lines 78-80). -/
def tmpl_has_typedef (p : Program) (TYPE : CType) (_TYPEDEF_NAME : String) : Option Bool :=
  is_valid (tmpl_has_typedef_probe p) () [TYPE]

/-- The probe of `tmpl_has_nonstatic_member_function(TYPE, MEMBER)` (lines 86-92):
`[](auto &&x) constexpr -> std::enable_if_t<std::is_function_v<
tmpl::detail::member_ptr_helper_t<decltype(&std::decay_t<decltype(x)>::MEMBER)>>> {}`. -/
def tmpl_has_nonstatic_member_function_probe (p : Program) (MEMBER : String) : ProbeType :=
  generic_lambda (fun Tx =>
    (addr_of_member p (decay_t Tx) MEMBER).bind (fun P =>
      (detail.member_ptr_helper_t P).bind (fun U =>
        enable_if_t (is_function_v U))))

/-- The macro `tmpl_has_nonstatic_member_function(TYPE, MEMBER)` (lines 85-92). -/
def tmpl_has_nonstatic_member_function (p : Program) (TYPE : CType) (MEMBER : String) :
    Option Bool :=
  is_valid (tmpl_has_nonstatic_member_function_probe p MEMBER) () [TYPE]

/-- The probe of `tmpl_has_static_member_function(TYPE, MEMBER)` (lines 95-101):
`[](auto &&x) constexpr -> std::enable_if_t<std::is_function_v<
std::remove_pointer_t<decltype(&std::decay_t<decltype(x)>::MEMBER)>>> {}`. -/
def tmpl_has_static_member_function_probe (p : Program) (MEMBER : String) : ProbeType :=
  generic_lambda (fun Tx =>
    (addr_of_member p (decay_t Tx) MEMBER).bind (fun P =>
      enable_if_t (is_function_v (remove_pointer_t P))))

/-- The macro `tmpl_has_static_member_function(TYPE, MEMBER)` (lines 94-101). -/
def tmpl_has_static_member_function (p : Program) (TYPE : CType) (MEMBER : String) :
    Option Bool :=
  is_valid (tmpl_has_static_member_function_probe p MEMBER) () [TYPE]

/-! ### The classes of the examples -/

/-- The classes of the examples: `struct A { int a; };` and `struct B { int b; };` of the
header's example, `struct P { using value_type = int; };`,
`struct Q { using key_type = int; };`, `struct M { void foo(); };`, `struct D { int foo; };`,
`struct FP { void (*foo)(); };` and `struct S { static void foo(); };`. -/
def example_program : Program :=
  [ { name := "A", members := [⟨"a", .pub, .data (.plain .int_)⟩] },
    { name := "B", members := [⟨"b", .pub, .data (.plain .int_)⟩] },
    { name := "P", members := [⟨"value_type", .pub, .type_ .int_⟩] },
    { name := "Q", members := [⟨"key_type", .pub, .type_ .int_⟩] },
    { name := "M", members := [⟨"foo", .pub, .function .void_ []⟩] },
    { name := "D", members := [⟨"foo", .pub, .data (.plain .int_)⟩] },
    { name := "FP", members := [⟨"foo", .pub, .data (.plain (.ptr (.func .void_ [])))⟩] },
    { name := "S", members := [⟨"foo", .pub, .static_function .void_ []⟩] } ]

/-- The probe `[](auto &&x) -> decltype(void(x.a)) {}` of the header's example. -/
def has_member_a_probe (p : Program) : ProbeType :=
  generic_lambda (fun Tx =>
    (member_access p (remove_reference_t Tx) "a").bind (fun _ => .ok .void_))

/-- The probe `[](auto &&x) { return x.a; }`: the same test without a trailing return
type. -/
def returns_member_a_probe (p : Program) : ProbeType :=
  generic_lambda_deduced (fun Tx => member_access p (remove_reference_t Tx) "a")

/-- The type `T` has a public nested type called `NAME`: looking `NAME` up in `T` finds one
declaration, which is public and names a type. -/
def has_public_nested_type (p : Program) (T : CType) (NAME : String) : Prop :=
  ∃ m ty, lookup p T NAME = [m] ∧ m.access = Access.pub ∧ m.kind = MemberKind.type_ ty

/-- The slice written after the spec's words, as an explicit ordered-container builder:
"iterate index-element pairs, test the range predicate, append retained elements to a mutable
builder".  The positions `k = 0, ..., n-1` are visited in order, and `V[k]` is appended
exactly when the paired index `I[k]` lies in `[Start, End)`. -/
def slice_builder {α : Type} (Start End : Int) (V : value_list α) (I : integer_sequence) :
    value_list α :=
  (List.range V.length).foldl
    (fun builder k =>
      match V[k]?, I[k]? with
      | some v, some i =>
        if decide (Start ≤ i) && decide (i < End) then builder ++ [v] else builder
      | _, _ => builder)
    []

/-- Further classes of the examples: `class K { int secret; };` (a private data member),
`struct R { static void (&foo)(); };` (a static data member of type reference to function),
`struct SD { static int foo; };` and `struct E {};`. -/
def more_examples : Program :=
  [ { name := "K", members := [⟨"secret", .priv, .data (.plain .int_)⟩] },
    { name := "R", members := [⟨"foo", .pub, .static_data (.lref (.func .void_ []))⟩] },
    { name := "SD", members := [⟨"foo", .pub, .static_data (.plain .int_)⟩] },
    { name := "E", members := [] } ]

/-- Whether the outcome is a type "pointer to member function". -/
def is_member_function_pointer : Subst CType → Bool
  | .ok (.memptr (.func _ _) _) => true
  | _ => false

/-- Whether the outcome is a type "pointer to function". -/
def is_function_pointer : Subst CType → Bool
  | .ok (.ptr (.func _ _)) => true
  | _ => false

/-! ## Auxiliary facts about `slice_helper` -/

/-- A call of the lambda `f` is ill-formed: its condition names the reference parameter. -/
theorem slice_helper_f_reference_parameter {α : Type} (Start End : Int) (x : value_list α)
    (i : Int) :
    detail.slice_helper_f Start End x (Operand.reference_parameter i) = none := rfl

/-- For a non-empty value list the instantiation of `slice_helper` is ill-formed. -/
theorem slice_helper_cons {α : Type} (Start End : Int) (v : α) (vs : value_list α)
    (I : integer_sequence) :
    detail.slice_helper Start End (v :: vs) I = none := by
  cases I with
  | nil => rfl
  | cons i is =>
    simp [detail.slice_helper, detail.expand, slice_helper_f_reference_parameter]

/-- For the empty value list the lambda is never called, and the fold is its seed. -/
theorem slice_helper_nil {α : Type} (Start End : Int) :
    detail.slice_helper Start End ([] : value_list α) (make_integer_sequence 0) = some [] :=
  rfl

/-! ## The claims -/

/-- C1: `slice_helper<2, 5>` on `[10, 20, 30, 40, 50]` and the index sequence `0, ..., 4`
does not return `[30, 40, 50]`: its instantiation is ill-formed, because the condition of the
`if constexpr` names the reference parameter `idx`, which is no constant expression.  The
same holds for every non-empty value list and all `Start`, `End`. -/
theorem slice_helper_window_ill_formed :
    detail.slice_helper 2 5 ([10, 20, 30, 40, 50] : value_list Int) (make_integer_sequence 5)
      = none ∧
    ∀ (Start End : Int) (v : Int) (vs : value_list Int),
      detail.slice_helper Start End (v :: vs) (make_integer_sequence (v :: vs).length)
        = none :=
  ⟨by decide, fun Start End v vs => slice_helper_cons Start End v vs _⟩

/-- C3: on the invalid ranges `<-2, 2>`, `<4, 1>` and `<1, 100>`, `slice_helper` on
`[10, 20, 30]` and the index sequence `0, 1, 2` returns no value list at all: the
instantiation is ill-formed (the reference parameter `idx` in the `if constexpr`), so nothing
degrades to an empty or partial result. -/
theorem slice_helper_invalid_range_ill_formed :
    detail.slice_helper (-2) 2 ([10, 20, 30] : value_list Int) (make_integer_sequence 3)
      = none ∧
    detail.slice_helper 4 1 ([10, 20, 30] : value_list Int) (make_integer_sequence 3)
      = none ∧
    detail.slice_helper 1 100 ([10, 20, 30] : value_list Int) (make_integer_sequence 3)
      = none :=
  ⟨by decide, by decide, by decide⟩

/-- C4: `slice_helper<0, 5>` on `[10, 20, 30, 40, 50]` and the index sequence `0, ..., 4`
does not return the list itself: the instantiation is ill-formed (the reference parameter
`idx` in the `if constexpr`).  Only the empty list is returned as it is. -/
theorem slice_helper_identity_ill_formed :
    detail.slice_helper 0 5 ([10, 20, 30, 40, 50] : value_list Int) (make_integer_sequence 5)
      = none ∧
    detail.slice_helper 0 0 ([] : value_list Int) (make_integer_sequence 0) = some [] :=
  ⟨by decide, by decide⟩

/-- C5: `slice_helper<3, 7>` on `[10, 20, 30]` and the index sequence `0, 1, 2`, a window that
starts at the end of the list, does not return the empty value list: the instantiation is
ill-formed (the reference parameter `idx` in the `if constexpr`). -/
theorem slice_helper_out_of_range_ill_formed :
    detail.slice_helper 3 7 ([10, 20, 30] : value_list Int) (make_integer_sequence 3)
      = none := by
  decide

/-- C6: `slice_helper<5, 5>` on `[10, 20, 30, 40, 50]` and the index sequence `0, ..., 4`
does not return the empty value list: the instantiation is ill-formed (the reference
parameter `idx` in the `if constexpr`). -/
theorem slice_helper_zero_width_ill_formed :
    detail.slice_helper 5 5 ([10, 20, 30, 40, 50] : value_list Int) (make_integer_sequence 5)
      = none := by
  decide

/-- C7: `slice_helper<4, 8>` on `[10, 20, 30]` and the index sequence `5, 0, 7` returns no
subsequence of the list: the instantiation is ill-formed (the reference parameter `idx` in
the `if constexpr`). -/
theorem slice_helper_sublist_ill_formed :
    detail.slice_helper 4 8 ([10, 20, 30] : value_list Int) [5, 0, 7] = none := by
  decide

/-- C2, the failing case: the probe `[](auto &&x) { return x.a; }` has no trailing return
type, and for `struct B { int b; }` the detector made from it yields no boolean: forming
`std::result_of_t<F(B)>` instantiates the lambda's body, which is a hard error. -/
theorem is_valid_deduced_probe_fails :
    (returns_member_a_probe example_program).result_of_t (CType.cls "B") = Subst.hard_error ∧
    ¬ ∃ b : Bool,
      is_valid (returns_member_a_probe example_program) () [CType.cls "B"] = some b := by
  refine ⟨rfl, ?_⟩
  rintro ⟨b, hb⟩
  have h : is_valid (returns_member_a_probe example_program) () [CType.cls "B"] = none := rfl
  rw [h] at hb
  cases hb

/-- C2, amended: for every probe type `F` and candidate type `T` for which forming
`std::result_of_t<F(T)>` is not a hard error, the detector `is_valid(probe)` applied to
`type_list<T>` yields a boolean; it is `true` exactly when `std::result_of_t<F(T)>` exists
(invoking the probe on an instance of `T` is well-formed) and `false` exactly when forming it
is a substitution failure. -/
theorem is_valid_detects (F : ProbeType) (f : F.State) (T : CType)
    (h : (F.result_of_t T).is_hard_error = false) :
    ∃ b : Bool, is_valid F f [T] = some b ∧
      (b = true ↔ ∃ R, F.result_of_t T = Subst.ok R) ∧
      (b = false ↔ F.result_of_t T = Subst.failure) := by
  cases hr : F.result_of_t T with
  | ok R =>
    exact ⟨true, by simp [is_valid, unbox, detail.is_valid_helper, void_t, hr, Subst.bind],
      by simp, by simp⟩
  | failure =>
    exact ⟨false, by simp [is_valid, unbox, detail.is_valid_helper, void_t, hr, Subst.bind],
      by simp, by simp⟩
  | hard_error => rw [hr] at h; cases h

/-- The witness of C2: the probe for member `a` of the header's example, on
`struct A { int a; }` and on `struct B { int b; }`. -/
theorem is_valid_detects_witness :
    is_valid (has_member_a_probe example_program) () [CType.cls "A"] = some true ∧
    is_valid (has_member_a_probe example_program) () [CType.cls "B"] = some false ∧
    (∃ b : Bool, is_valid (has_member_a_probe example_program) () [CType.cls "A"] = some b ∧
      (b = true ↔
        ∃ R, (has_member_a_probe example_program).result_of_t (CType.cls "A") = Subst.ok R) ∧
      (b = false ↔
        (has_member_a_probe example_program).result_of_t (CType.cls "A") = Subst.failure)) :=
  ⟨by decide, by decide,
    is_valid_detects (has_member_a_probe example_program) () (CType.cls "A") (by decide)⟩

/-- C8: `tmpl_has_nonstatic_member_function(T, foo)` is `true` when `foo` names a single
public non-static member function of `T`, and `false` when `foo` names a data member of `T`
(static or not) whose type is not a function type, a pointer to function included. -/
theorem has_nonstatic_member_function_spec (p : Program) (T : CType) (foo : String)
    (m : Member) (hl : lookup p T foo = [m]) :
    (m.access = Access.pub → ∀ r ps, m.kind = MemberKind.function r ps →
      tmpl_has_nonstatic_member_function p T foo = some true) ∧
    (∀ ty, (∀ r ps, ty ≠ DeclType.plain (CType.func r ps)) →
      (m.kind = MemberKind.data ty ∨ m.kind = MemberKind.static_data ty) →
      tmpl_has_nonstatic_member_function p T foo = some false) := by
  obtain ⟨n, a, k⟩ := m
  cases T with
  | cls c =>
    constructor
    · intro ha r ps hk
      simp only at ha hk
      subst ha hk
      simp [tmpl_has_nonstatic_member_function, is_valid, unbox, detail.is_valid_helper,
        tmpl_has_nonstatic_member_function_probe, generic_lambda, decltype_x, decay_t,
        remove_reference_t, addr_of_member, hl, Subst.bind, detail.member_ptr_helper_t,
        detail.member_ptr_helper, is_function_v, enable_if_t, void_t]
    · intro ty hty hk
      simp only at hk
      rcases hk with hk | hk
      · subst hk
        cases a <;> cases ty with
        | plain t =>
          cases t <;>
          simp [tmpl_has_nonstatic_member_function, is_valid, unbox, detail.is_valid_helper,
            tmpl_has_nonstatic_member_function_probe, generic_lambda, decltype_x, decay_t,
            remove_reference_t, addr_of_member, hl, Subst.bind, detail.member_ptr_helper_t,
            detail.member_ptr_helper, is_function_v, enable_if_t, void_t] at hty ⊢
        | lref t =>
          simp [tmpl_has_nonstatic_member_function, is_valid, unbox, detail.is_valid_helper,
            tmpl_has_nonstatic_member_function_probe, generic_lambda, decltype_x, decay_t,
            remove_reference_t, addr_of_member, hl, Subst.bind, void_t]
        | rref t =>
          simp [tmpl_has_nonstatic_member_function, is_valid, unbox, detail.is_valid_helper,
            tmpl_has_nonstatic_member_function_probe, generic_lambda, decltype_x, decay_t,
            remove_reference_t, addr_of_member, hl, Subst.bind, void_t]
      · subst hk
        cases a <;>
        simp [tmpl_has_nonstatic_member_function, is_valid, unbox, detail.is_valid_helper,
          tmpl_has_nonstatic_member_function_probe, generic_lambda, decltype_x, decay_t,
          remove_reference_t, addr_of_member, hl, Subst.bind, detail.member_ptr_helper_t,
          detail.member_ptr_helper, void_t]
  | void_ => simp [lookup, members_of] at hl
  | int_ => simp [lookup, members_of] at hl
  | func r ps => simp [lookup, members_of] at hl
  | ptr t => simp [lookup, members_of] at hl
  | memptr t c => simp [lookup, members_of] at hl

/-- The witness of C8: `struct M { void foo(); };`, `struct D { int foo; };` and
`struct FP { void (*foo)(); };`. -/
theorem has_nonstatic_member_function_spec_witness :
    tmpl_has_nonstatic_member_function example_program (CType.cls "M") "foo" = some true ∧
    tmpl_has_nonstatic_member_function example_program (CType.cls "D") "foo" = some false ∧
    tmpl_has_nonstatic_member_function example_program (CType.cls "FP") "foo" = some false :=
  ⟨(has_nonstatic_member_function_spec example_program (CType.cls "M") "foo"
      ⟨"foo", Access.pub, MemberKind.function CType.void_ []⟩ rfl).1 rfl _ _ rfl,
    (has_nonstatic_member_function_spec example_program (CType.cls "D") "foo"
      ⟨"foo", Access.pub, MemberKind.data (DeclType.plain CType.int_)⟩ rfl).2 _
        (fun _ _ h => by cases h) (Or.inl rfl),
    (has_nonstatic_member_function_spec example_program (CType.cls "FP") "foo"
      ⟨"foo", Access.pub,
        MemberKind.data (DeclType.plain (CType.ptr (CType.func CType.void_ [])))⟩ rfl).2 _
        (fun _ _ h => by cases h) (Or.inl rfl)⟩

/-- C9: `tmpl_has_static_member_function(T, foo)` is `true` when `foo` names a single public
static member function of `T`, and `false` when `foo` names a non-static member function of
`T`: `remove_pointer_t` leaves a pointer-to-member type unchanged, and a pointer-to-member
type is not a function type. -/
theorem has_static_member_function_spec (p : Program) (T : CType) (foo : String)
    (m : Member) (hl : lookup p T foo = [m]) :
    (m.access = Access.pub → ∀ r ps, m.kind = MemberKind.static_function r ps →
      tmpl_has_static_member_function p T foo = some true) ∧
    (∀ r ps, m.kind = MemberKind.function r ps →
      tmpl_has_static_member_function p T foo = some false) ∧
    (∀ U c, remove_pointer_t (CType.memptr U c) = CType.memptr U c ∧
      is_function_v (CType.memptr U c) = false) := by
  obtain ⟨n, a, k⟩ := m
  cases T with
  | cls c =>
    refine ⟨?_, ?_, fun U c => ⟨rfl, rfl⟩⟩
    · intro ha r ps hk
      simp only at ha hk
      subst ha hk
      simp [tmpl_has_static_member_function, is_valid, unbox, detail.is_valid_helper,
        tmpl_has_static_member_function_probe, generic_lambda, decltype_x, decay_t,
        remove_reference_t, addr_of_member, hl, Subst.bind, remove_pointer_t, is_function_v,
        enable_if_t, void_t]
    · intro r ps hk
      simp only at hk
      subst hk
      cases a <;>
      simp [tmpl_has_static_member_function, is_valid, unbox, detail.is_valid_helper,
        tmpl_has_static_member_function_probe, generic_lambda, decltype_x, decay_t,
        remove_reference_t, addr_of_member, hl, Subst.bind, remove_pointer_t, is_function_v,
        enable_if_t, void_t]
  | void_ => simp [lookup, members_of] at hl
  | int_ => simp [lookup, members_of] at hl
  | func r ps => simp [lookup, members_of] at hl
  | ptr t => simp [lookup, members_of] at hl
  | memptr t c => simp [lookup, members_of] at hl

/-- The witness of C9: `struct S { static void foo(); };` and `struct M { void foo(); };`. -/
theorem has_static_member_function_spec_witness :
    tmpl_has_static_member_function example_program (CType.cls "S") "foo" = some true ∧
    tmpl_has_static_member_function example_program (CType.cls "M") "foo" = some false :=
  ⟨(has_static_member_function_spec example_program (CType.cls "S") "foo"
      ⟨"foo", Access.pub, MemberKind.static_function CType.void_ []⟩ rfl).1 rfl _ _ rfl,
    (has_static_member_function_spec example_program (CType.cls "M") "foo"
      ⟨"foo", Access.pub, MemberKind.function CType.void_ []⟩ rfl).2.1 _ _ rfl⟩

/-- The lookup of a nested type is never a hard error. -/
theorem nested_type_not_hard_error (p : Program) (T : CType) (N : String) :
    nested_type p T N ≠ Subst.hard_error := by
  unfold nested_type
  cases hl : lookup p T N with
  | nil => simp
  | cons m ms =>
    cases ms with
    | cons m2 ms2 => simp
    | nil =>
      obtain ⟨n, a, k⟩ := m
      cases a <;> cases k <;> simp

/-- The value of `tmpl_has_typedef(T, N)` in terms of the lookup of `value_type` in `T`. -/
theorem tmpl_has_typedef_eq (p : Program) (T : CType) (N : String) :
    tmpl_has_typedef p T N = some (nested_type p T "value_type").is_ok := by
  have hd : ∀ U : CType, ((declval U).bind (fun _ => Subst.ok CType.void_)) =
      (Subst.ok CType.void_ : Subst CType) := by
    intro U
    cases U <;> rfl
  have hn : ∀ r ps, nested_type p (CType.ptr (CType.func r ps)) "value_type" = Subst.failure :=
    fun _ _ => rfl
  have hf : ∀ r ps, nested_type p (CType.func r ps) "value_type" = Subst.failure :=
    fun _ _ => rfl
  have hv : nested_type p CType.void_ "value_type" = Subst.failure := rfl
  have key : ∀ X : CType,
      (match void_t ((nested_type p X "value_type").bind (fun U =>
          (declval U).bind (fun _ => Subst.ok CType.void_))) with
        | Subst.ok _ => some true
        | Subst.failure => some false
        | Subst.hard_error => none) = some (nested_type p X "value_type").is_ok := by
    intro X
    have hne := nested_type_not_hard_error p X "value_type"
    cases hr : nested_type p X "value_type" with
    | ok U =>
      have h2 : (Subst.ok U : Subst CType).bind (fun U =>
          (declval U).bind (fun _ => Subst.ok CType.void_)) = Subst.ok CType.void_ := hd U
      rw [h2]
      rfl
    | failure => rfl
    | hard_error => exact absurd hr hne
  cases T with
  | void_ =>
    simp [tmpl_has_typedef, is_valid, unbox, detail.is_valid_helper, tmpl_has_typedef_probe,
      generic_lambda, void_t, Subst.bind, hv, Subst.is_ok]
  | func r ps =>
    simp [tmpl_has_typedef, is_valid, unbox, detail.is_valid_helper, tmpl_has_typedef_probe,
      generic_lambda, void_t, Subst.bind, decltype_x, decay_t, remove_reference_t, hn, hf,
      Subst.is_ok]
  | int_ => exact key CType.int_
  | cls c => exact key (CType.cls c)
  | ptr t => exact key (CType.ptr t)
  | memptr t c => exact key (CType.memptr t c)

/-- The lookup of a nested type succeeds exactly for a public nested type. -/
theorem nested_type_is_ok_iff (p : Program) (T : CType) (N : String) :
    (nested_type p T N).is_ok = true ↔ has_public_nested_type p T N := by
  unfold nested_type has_public_nested_type
  cases hl : lookup p T N with
  | nil => simp [Subst.is_ok]
  | cons m ms =>
    cases ms with
    | cons m2 ms2 => simp [Subst.is_ok]
    | nil =>
      obtain ⟨n, a, k⟩ := m
      cases a <;> cases k <;> simp [Subst.is_ok]

/-- C10: `tmpl_has_typedef` ignores its name argument: for every type `T` and all names `N1`
and `N2`, `tmpl_has_typedef(T, N1)` equals `tmpl_has_typedef(T, N2)`; the value is `true`
exactly when `T` has a public nested type named `value_type`, and `false` otherwise.  For
`struct P { using value_type = int; }` the query with the name `key_type` is `true`, for
`struct Q { using key_type = int; }` it is `false`. -/
theorem tmpl_has_typedef_ignores_name (p : Program) (T : CType) (N1 N2 : String) :
    tmpl_has_typedef p T N1 = tmpl_has_typedef p T N2 ∧
    (tmpl_has_typedef p T N1 = some true ↔ has_public_nested_type p T "value_type") ∧
    (tmpl_has_typedef p T N1 = some false ↔ ¬ has_public_nested_type p T "value_type") ∧
    tmpl_has_typedef example_program (CType.cls "P") "key_type" = some true ∧
    tmpl_has_typedef example_program (CType.cls "Q") "key_type" = some false := by
  refine ⟨rfl, ?_, ?_, by decide, by decide⟩
  · rw [tmpl_has_typedef_eq, ← nested_type_is_ok_iff]
    simp
  · rw [tmpl_has_typedef_eq, ← nested_type_is_ok_iff]
    simp

/-- C11: the header documents `tmpl_has_typedef(TYPE, TYPEDEF_NAME)` as the test "whether a
type TYPE has a public typedef TYPEDEF_NAME", but the code does not do that:
`struct Q { using key_type = int; }` has a public typedef `key_type` and the query with the
name `key_type` is `false`, and `struct P { using value_type = int; }` has no typedef
`key_type` and the query with the name `key_type` is `true`. -/
theorem tmpl_has_typedef_contradicts_doc :
    (has_public_nested_type example_program (CType.cls "Q") "key_type" ∧
      tmpl_has_typedef example_program (CType.cls "Q") "key_type" = some false) ∧
    (¬ has_public_nested_type example_program (CType.cls "P") "key_type" ∧
      tmpl_has_typedef example_program (CType.cls "P") "key_type" = some true) := by
  refine ⟨⟨?_, by decide⟩, ?_, by decide⟩
  · exact ⟨⟨"key_type", Access.pub, MemberKind.type_ CType.int_⟩, CType.int_, rfl, rfl, rfl⟩
  · rintro ⟨m, ty, hl, -, -⟩
    have h : lookup example_program (CType.cls "P") "key_type" = [] := rfl
    rw [h] at hl
    cases hl

/-- C13: the value of `is_valid(f)(type_list<T>)` is a function of the probe type `F` and of
the candidate type `T` only, namely `is_valid_helper<F, T>::value`: two evaluations, with any
two probe objects `f` and `g` of type `F`, give the same result.  The argument of the
detector is an object of the empty class `type_list<T>` and enters by its type only. -/
theorem is_valid_referentially_transparent (F : ProbeType) (f g : F.State) (T : CType) :
    is_valid F f [T] = is_valid F g [T] ∧
    is_valid F f [T] = detail.is_valid_helper F T ∧
    ∀ b : Bool, is_valid F f [T] = some b → is_valid F g [T] = some b :=
  ⟨rfl, rfl, fun _ h => h⟩

/-- C14: the concatenation `operator|` of value lists is associative, the empty value list is
a left and a right identity, and `A | B` has `length(A) + length(B)` elements, those of `A`
first and then those of `B`. -/
theorem concat_assoc_identity {α : Type} (A B C : value_list α) :
    concat (concat A B) C = concat A (concat B C) ∧
    concat A [] = A ∧ concat [] A = A ∧
    (concat A B).length = A.length + B.length ∧
    (∀ i, i < A.length → (concat A B)[i]? = A[i]?) ∧
    (∀ j, (concat A B)[A.length + j]? = B[j]?) := by
  unfold concat
  refine ⟨List.append_assoc A B C, List.append_nil A, List.nil_append A,
    List.length_append A B, ?_, ?_⟩
  · intro i hi
    exact List.getElem?_append_left hi
  · intro j
    rw [List.getElem?_append_right (Nat.le_add_right _ _)]
    simp

/-- C16: `member_ptr_helper_t` maps a pointer-to-member type `U T::*` to `U`: a function
type when the member is a (public, non-overloaded) member function, the field's type when it
is a data member.  For a type that is not a pointer to member, such as `int` or a pointer to
function, `member_ptr_helper` has no `type`. -/
theorem member_ptr_helper_spec :
    (∀ U c, detail.member_ptr_helper (CType.memptr U c) = some U ∧
      detail.member_ptr_helper_t (CType.memptr U c) = Subst.ok U) ∧
    (∀ T, (∀ U c, T ≠ CType.memptr U c) →
      detail.member_ptr_helper T = none ∧ detail.member_ptr_helper_t T = Subst.failure) ∧
    detail.member_ptr_helper CType.int_ = none ∧
    (∀ r ps, detail.member_ptr_helper (CType.ptr (CType.func r ps)) = none) ∧
    (∀ p c M m, lookup p (CType.cls c) M = [m] → m.access = Access.pub →
      (∀ r ps, m.kind = MemberKind.function r ps →
        (addr_of_member p (CType.cls c) M).bind detail.member_ptr_helper_t
          = Subst.ok (CType.func r ps)) ∧
      (∀ t, m.kind = MemberKind.data (DeclType.plain t) →
        (addr_of_member p (CType.cls c) M).bind detail.member_ptr_helper_t = Subst.ok t)) := by
  refine ⟨fun U c => ⟨rfl, rfl⟩, ?_, rfl, fun _ _ => rfl, ?_⟩
  · intro T hT
    cases T with
    | memptr U c => exact absurd rfl (hT U c)
    | void_ => exact ⟨rfl, rfl⟩
    | int_ => exact ⟨rfl, rfl⟩
    | cls n => exact ⟨rfl, rfl⟩
    | func r ps => exact ⟨rfl, rfl⟩
    | ptr t => exact ⟨rfl, rfl⟩
  · intro p c M m hl ha
    obtain ⟨n, a, k⟩ := m
    simp only at ha
    subst ha
    constructor
    · intro r ps hk
      simp only at hk
      subst hk
      simp [addr_of_member, hl, Subst.bind, detail.member_ptr_helper_t,
        detail.member_ptr_helper]
    · intro t hk
      simp only at hk
      subst hk
      simp [addr_of_member, hl, Subst.bind, detail.member_ptr_helper_t,
        detail.member_ptr_helper]

/-- C15: on `[10, 20, 30]` with the index sequence `5, 0, 7` and the bounds `<4, 8>`, the
explicit builder loop of the spec makes `[10, 30]`, but the fold of `slice_helper` makes no
list: the instantiation is ill-formed (the reference parameter `idx` in the
`if constexpr`). -/
theorem slice_helper_differs_from_builder :
    slice_builder 4 8 ([10, 20, 30] : value_list Int) [5, 0, 7] = [10, 30] ∧
    detail.slice_helper 4 8 ([10, 20, 30] : value_list Int) [5, 0, 7] = none :=
  ⟨by decide, by decide⟩

/-- C17: the slices `<1, 3>`, `<3, 4>` and `<1, 4>` of `[10, 20, 30, 40, 50]`, taken with the
index sequence `0, ..., 4`, do not exist, so there is nothing to concatenate: each
instantiation is ill-formed (the reference parameter `idx` in the `if constexpr`). -/
theorem slice_helper_adjacent_ill_formed :
    detail.slice_helper 1 3 ([10, 20, 30, 40, 50] : value_list Int) (make_integer_sequence 5)
      = none ∧
    detail.slice_helper 3 4 ([10, 20, 30, 40, 50] : value_list Int) (make_integer_sequence 5)
      = none ∧
    detail.slice_helper 1 4 ([10, 20, 30, 40, 50] : value_list Int) (make_integer_sequence 5)
      = none :=
  ⟨by decide, by decide, by decide⟩

/-- The expression `x.MEMBER` is never a hard error. -/
theorem member_access_not_hard_error (p : Program) (T : CType) (M : String) :
    member_access p T M ≠ Subst.hard_error := by
  unfold member_access
  cases hl : lookup p T M with
  | nil => simp
  | cons m ms =>
    cases ms with
    | cons m2 ms2 => simp
    | nil =>
      obtain ⟨n, a, k⟩ := m
      cases a <;> cases k <;> simp

/-- The value of `tmpl_has_member(T, M)` is the well-formedness of `(void)x.M`. -/
theorem tmpl_has_member_eq (p : Program) (T : CType) (M : String) :
    tmpl_has_member p T M = some (member_access p T M).is_ok := by
  have key : ∀ X : CType,
      (match void_t ((member_access p X M).bind (fun _ => Subst.ok CType.void_)) with
        | Subst.ok _ => some true
        | Subst.failure => some false
        | Subst.hard_error => none) = some (member_access p X M).is_ok := by
    intro X
    have hne := member_access_not_hard_error p X M
    cases hr : member_access p X M with
    | ok U => rfl
    | failure => rfl
    | hard_error => exact absurd hr hne
  cases T with
  | void_ => rfl
  | int_ => exact key CType.int_
  | cls c => exact key (CType.cls c)
  | func r ps => exact key (CType.func r ps)
  | ptr t => exact key (CType.ptr t)
  | memptr t c => exact key (CType.memptr t c)

/-- The expression `x.MEMBER` is well-formed exactly for a single public data member or
static member function. -/
theorem member_access_is_ok_iff (p : Program) (T : CType) (M : String) :
    (member_access p T M).is_ok = true ↔
      ∃ m, lookup p T M = [m] ∧ m.access = Access.pub ∧
        ((∃ ty, m.kind = MemberKind.data ty) ∨ (∃ ty, m.kind = MemberKind.static_data ty) ∨
          (∃ r ps, m.kind = MemberKind.static_function r ps)) := by
  unfold member_access
  cases hl : lookup p T M with
  | nil => simp [Subst.is_ok]
  | cons m ms =>
    cases ms with
    | cons m2 ms2 => simp [Subst.is_ok]
    | nil =>
      obtain ⟨n, a, k⟩ := m
      cases a <;> cases k <;> simp [Subst.is_ok]

/-- C12, the failing cases: `struct M { void foo(); }` has a member called `foo`, a public
non-static member function, and `class K { int secret; }` has a member called `secret`, a
private data member; `tmpl_has_member` is `false` for both. -/
theorem tmpl_has_member_misses_members :
    (∃ r ps, lookup example_program (CType.cls "M") "foo"
        = [⟨"foo", Access.pub, MemberKind.function r ps⟩]) ∧
    tmpl_has_member example_program (CType.cls "M") "foo" = some false ∧
    (∃ ty, lookup more_examples (CType.cls "K") "secret"
        = [⟨"secret", Access.priv, MemberKind.data ty⟩]) ∧
    tmpl_has_member more_examples (CType.cls "K") "secret" = some false :=
  ⟨⟨CType.void_, [], rfl⟩, by decide, ⟨DeclType.plain CType.int_, rfl⟩, by decide⟩

/-- C12, amended: `tmpl_has_member(T, M)` is the well-formedness of the expression
`(void)x.M` for an instance `x` of `T`, checked from outside of `T`.  It is `true` when `M`
names a single public member of `T` that is a non-static data member, a static data member
or a static member function, and `false` when `T` has no member of that name or when the
member is not public. -/
theorem tmpl_has_member_spec (p : Program) (T : CType) (M : String) :
    tmpl_has_member p T M = some (member_access p T M).is_ok ∧
    (∀ m, lookup p T M = [m] → m.access = Access.pub →
      ((∃ ty, m.kind = MemberKind.data ty) ∨ (∃ ty, m.kind = MemberKind.static_data ty) ∨
        (∃ r ps, m.kind = MemberKind.static_function r ps)) →
      tmpl_has_member p T M = some true) ∧
    (lookup p T M = [] → tmpl_has_member p T M = some false) ∧
    (∀ m, lookup p T M = [m] → m.access ≠ Access.pub →
      tmpl_has_member p T M = some false) := by
  have hiff := member_access_is_ok_iff p T M
  have heq := tmpl_has_member_eq p T M
  have hfalse : tmpl_has_member p T M = some false ↔
      ¬ ∃ m, lookup p T M = [m] ∧ m.access = Access.pub ∧
        ((∃ ty, m.kind = MemberKind.data ty) ∨ (∃ ty, m.kind = MemberKind.static_data ty) ∨
          (∃ r ps, m.kind = MemberKind.static_function r ps)) := by
    rw [heq, ← hiff]
    simp
  refine ⟨heq, ?_, ?_, ?_⟩
  · intro m hl ha hk
    rw [heq, hiff.mpr ⟨m, hl, ha, hk⟩]
  · intro hl
    rw [hfalse]
    rintro ⟨m, hm, -⟩
    rw [hl] at hm
    cases hm
  · intro m hl ha
    rw [hfalse]
    rintro ⟨m2, hm, hpub, -⟩
    rw [hl] at hm
    cases hm
    exact ha hpub

/-- The expression `&T::MEMBER` is never a hard error. -/
theorem addr_of_member_not_hard_error (p : Program) (T : CType) (M : String) :
    addr_of_member p T M ≠ Subst.hard_error := by
  unfold addr_of_member
  cases T with
  | cls c =>
    cases hl : lookup p (CType.cls c) M with
    | nil => simp
    | cons m ms =>
      cases ms with
      | cons m2 ms2 => simp
      | nil =>
        obtain ⟨n, a, k⟩ := m
        cases a <;> cases k with
        | data ty => cases ty <;> simp
        | static_data ty => simp
        | function r ps => simp
        | static_function r ps => simp
        | type_ t => simp
  | void_ => simp
  | int_ => simp
  | func r ps => simp
  | ptr t => simp
  | memptr t c => simp

/-- The values of the two member-function queries in terms of the type of `&T::M`. -/
theorem member_function_queries_eq (p : Program) (T : CType) (M : String) :
    tmpl_has_nonstatic_member_function p T M
      = some (is_member_function_pointer (addr_of_member p T M)) ∧
    tmpl_has_static_member_function p T M
      = some (is_function_pointer (addr_of_member p T M)) := by
  have key1 : ∀ X : CType,
      (match void_t ((addr_of_member p X M).bind (fun P =>
          (detail.member_ptr_helper_t P).bind (fun U => enable_if_t (is_function_v U)))) with
        | Subst.ok _ => some true
        | Subst.failure => some false
        | Subst.hard_error => none)
        = some (is_member_function_pointer (addr_of_member p X M)) := by
    intro X
    have hne := addr_of_member_not_hard_error p X M
    cases hr : addr_of_member p X M with
    | hard_error => exact absurd hr hne
    | failure => rfl
    | ok P =>
      cases P with
      | memptr U c => cases U <;> rfl
      | void_ => rfl
      | int_ => rfl
      | cls n => rfl
      | func r ps => rfl
      | ptr t => rfl
  have key2 : ∀ X : CType,
      (match void_t ((addr_of_member p X M).bind (fun P =>
          enable_if_t (is_function_v (remove_pointer_t P)))) with
        | Subst.ok _ => some true
        | Subst.failure => some false
        | Subst.hard_error => none)
        = some (is_function_pointer (addr_of_member p X M)) := by
    intro X
    have hne := addr_of_member_not_hard_error p X M
    have hfun : ∀ r ps, addr_of_member p X M ≠ Subst.ok (CType.func r ps) := by
      intro r ps
      unfold addr_of_member
      cases X with
      | cls c =>
        cases hl : lookup p (CType.cls c) M with
        | nil => simp
        | cons m ms =>
          cases ms with
          | cons m2 ms2 => simp
          | nil =>
            obtain ⟨n, a, k⟩ := m
            cases a <;> cases k with
            | data ty => cases ty <;> simp
            | static_data ty => simp
            | function r ps => simp
            | static_function r ps => simp
            | type_ t => simp
      | void_ => simp
      | int_ => simp
      | func r ps => simp
      | ptr t => simp
      | memptr t c => simp
    cases hr : addr_of_member p X M with
    | hard_error => exact absurd hr hne
    | failure => rfl
    | ok P =>
      cases P with
      | ptr t => cases t <;> rfl
      | func r ps => exact absurd hr (hfun r ps)
      | void_ => rfl
      | int_ => rfl
      | cls n => rfl
      | memptr U c => rfl
  cases T with
  | void_ => exact ⟨rfl, rfl⟩
  | func r ps => exact ⟨rfl, rfl⟩
  | int_ => exact ⟨key1 CType.int_, key2 CType.int_⟩
  | cls c => exact ⟨key1 (CType.cls c), key2 (CType.cls c)⟩
  | ptr t => exact ⟨key1 (CType.ptr t), key2 (CType.ptr t)⟩
  | memptr t c => exact ⟨key1 (CType.memptr t c), key2 (CType.memptr t c)⟩

/-- C18, the failing case: in `struct R { static void (&foo)(); }` the member `foo` is a
static data member whose type, a reference to function, is not a function type, and
`tmpl_has_static_member_function(R, foo)` is `true`: `&R::foo` is a pointer to function. -/
theorem static_query_true_for_reference_member :
    lookup more_examples (CType.cls "R") "foo"
      = [⟨"foo", Access.pub,
          MemberKind.static_data (DeclType.lref (CType.func CType.void_ []))⟩] ∧
    (∀ r ps, DeclType.lref (CType.func CType.void_ []) ≠ DeclType.plain (CType.func r ps)) ∧
    tmpl_has_static_member_function more_examples (CType.cls "R") "foo" = some true :=
  ⟨rfl, fun _ _ h => (by cases h), by decide⟩

/-- C18, amended: for every type `T` and every name `M` the two member-function queries are
never both `true`.  Both are `false` when `T` has no member `M`, when `M` is a non-static
data member of non-function type, and when `M` is a static data member whose type, with a
reference removed, is not a function type.  `tmpl_has_nonstatic_member_function` is `false`
for a static member function: the type of `&T::M` is then an ordinary pointer, for which
`member_ptr_helper` has no `type`. -/
theorem member_function_queries_exclusive (p : Program) (T : CType) (M : String) :
    ¬ (tmpl_has_nonstatic_member_function p T M = some true ∧
        tmpl_has_static_member_function p T M = some true) ∧
    (lookup p T M = [] →
      tmpl_has_nonstatic_member_function p T M = some false ∧
        tmpl_has_static_member_function p T M = some false) ∧
    (∀ m ty, lookup p T M = [m] → m.kind = MemberKind.data ty →
      (∀ r ps, ty ≠ DeclType.plain (CType.func r ps)) →
      tmpl_has_nonstatic_member_function p T M = some false ∧
        tmpl_has_static_member_function p T M = some false) ∧
    (∀ m ty, lookup p T M = [m] → m.kind = MemberKind.static_data ty →
      is_function_v (remove_reference_t ty) = false →
      tmpl_has_nonstatic_member_function p T M = some false ∧
        tmpl_has_static_member_function p T M = some false) ∧
    (∀ m r ps, lookup p T M = [m] → m.kind = MemberKind.static_function r ps →
      tmpl_has_nonstatic_member_function p T M = some false ∧
      detail.member_ptr_helper (CType.ptr (CType.func r ps)) = none ∧
      (m.access = Access.pub →
        addr_of_member p T M = Subst.ok (CType.ptr (CType.func r ps)))) := by
  obtain ⟨h1, h2⟩ := member_function_queries_eq p T M
  rw [h1, h2]
  refine ⟨?_, ?_, ?_, ?_, ?_⟩
  · rintro ⟨ha, hb⟩
    cases hr : addr_of_member p T M with
    | hard_error => rw [hr] at ha; cases ha
    | failure => rw [hr] at ha; cases ha
    | ok P =>
      rw [hr] at ha hb
      cases P with
      | memptr U c => cases hb
      | ptr t => cases ha
      | void_ => cases ha
      | int_ => cases ha
      | cls n => cases ha
      | func r ps => cases ha
  · intro hl
    have hf : addr_of_member p T M = Subst.failure := by
      unfold addr_of_member
      cases T <;> simp [hl]
    rw [hf]
    exact ⟨rfl, rfl⟩
  · intro m ty hl hk hty
    obtain ⟨n, a, k⟩ := m
    simp only at hk
    subst hk
    cases T with
    | cls c =>
      cases a <;> cases ty with
      | plain t =>
        cases t <;> simp [addr_of_member, hl, is_member_function_pointer,
          is_function_pointer] at hty ⊢
      | lref t =>
        simp [addr_of_member, hl, is_member_function_pointer, is_function_pointer]
      | rref t =>
        simp [addr_of_member, hl, is_member_function_pointer, is_function_pointer]
    | void_ => simp [lookup, members_of] at hl
    | int_ => simp [lookup, members_of] at hl
    | func r ps => simp [lookup, members_of] at hl
    | ptr t => simp [lookup, members_of] at hl
    | memptr t c => simp [lookup, members_of] at hl
  · intro m ty hl hk hty
    obtain ⟨n, a, k⟩ := m
    simp only at hk
    subst hk
    cases T with
    | cls c =>
      cases a <;> cases ty with
      | plain t =>
        cases t <;> simp [addr_of_member, hl, is_member_function_pointer,
          is_function_pointer, remove_reference_t, is_function_v] at hty ⊢
      | lref t =>
        cases t <;> simp [addr_of_member, hl, is_member_function_pointer,
          is_function_pointer, remove_reference_t, is_function_v] at hty ⊢
      | rref t =>
        cases t <;> simp [addr_of_member, hl, is_member_function_pointer,
          is_function_pointer, remove_reference_t, is_function_v] at hty ⊢
    | void_ => simp [lookup, members_of] at hl
    | int_ => simp [lookup, members_of] at hl
    | func r ps => simp [lookup, members_of] at hl
    | ptr t => simp [lookup, members_of] at hl
    | memptr t c => simp [lookup, members_of] at hl
  · intro m r ps hl hk
    obtain ⟨n, a, k⟩ := m
    simp only at hk
    subst hk
    cases T with
    | cls c =>
      cases a <;> simp [addr_of_member, hl, is_member_function_pointer,
        detail.member_ptr_helper]
    | void_ => simp [lookup, members_of] at hl
    | int_ => simp [lookup, members_of] at hl
    | func r ps => simp [lookup, members_of] at hl
    | ptr t => simp [lookup, members_of] at hl
    | memptr t c => simp [lookup, members_of] at hl

end tmpl
